import Mathlib

/-!
Shallow embedding of `Setup_custom.py` from the `Common_cpp_boost_Helpers`
repository, together with theorems settling the specification claims about it.

The script declares, per detected platform (OS category name and CPU
architecture), an insertion-ordered mapping from configuration name to a
`Configuration` record listing the upstream repository dependencies, plus a
custom-actions function that always returns the empty list, plus a load-time
precondition on the `DEVELOPMENT_ENVIRONMENT_FUNDAMENTAL` environment variable.
-/

namespace SetupCustom

/-- A `Dependency` record as constructed by the framework constructor
`Dependency(id, name, configuration, url)` (positional arguments, all strings). -/
structure Dependency where
  id : String
  name : String
  configuration : String
  url : String
deriving DecidableEq, Repr

/-- A `Configuration` record as constructed by the framework constructor
`Configuration(description, dependencies)`. -/
structure Configuration where
  description : String
  dependencies : List Dependency
deriving DecidableEq, Repr

/-- The process-wide platform-detection state read by `GetDependencies` through
the framework object `CurrentShell`: its `CategoryName` and `Architecture`
string attributes.  These two attributes are the only inputs the function reads. -/
structure Shell where
  CategoryName : String
  Architecture : String
deriving DecidableEq, Repr

/-- Insertion into a Python `OrderedDict` (`d[key] = value`): if the key is
already present its value is replaced in place, otherwise the pair is appended.
The ordered dictionary is embedded as an association list in insertion order. -/
def odInsert (d : List (String × Configuration)) (key : String) (value : Configuration) :
    List (String × Configuration) :=
  if d.any (fun entry => entry.1 == key) then
    d.map (fun entry => if entry.1 == key then (key, value) else entry)
  else
    d ++ [(key, value)]

/-- The `architectures` local of `GetDependencies` (`Setup_custom.py` lines
97-109): two fixed architectures on Windows, only the detected architecture
elsewhere. -/
def architecturesOf (CurrentShell : Shell) : List String :=
  if CurrentShell.CategoryName = "Windows" then
    ["x64", "x86"]
  else
    [CurrentShell.Architecture]

/-- The `compiler_infos` local of `GetDependencies` (`Setup_custom.py` lines
100-114): pairs of compiler identifier and optional configuration-name suffix.
The commented-out `Clang_8` entries of the source are absent, as in the source. -/
def compiler_infosOf (CurrentShell : Shell) : List (String × Option String) :=
  if CurrentShell.CategoryName = "Windows" then
    [("MSVC_2019", none), ("Clang_10", some "_ex")]
  else
    [("Clang_10", some "_ex")]

/-- `GetDependencies()` (`Setup_custom.py` lines 89-162).  Python `.format`
calls are expanded into string concatenations; `architecture_configuration_suffix or ""`
becomes `Option.getD`.  The `OrderedDict` is built by `odInsert` in the same
loop order as the source: for each boost version, the base configuration first,
then for each compiler-info pair, for each architecture, the qualified
configuration. -/
def GetDependencies (CurrentShell : Shell) : List (String × Configuration) :=
  let architectures := architecturesOf CurrentShell
  let compiler_infos := compiler_infosOf CurrentShell
  ["1.70.0"].foldl
    (fun d boost_version =>
      let d := odInsert d boost_version
        (Configuration.mk
          ("boost " ++ boost_version ++ " (No compiler dependencies)")
          [Dependency.mk
            "407DD743110A4FB1871AEF60CBEC99A0"
            ("Common_cpp_boost_" ++ boost_version)
            "standard"
            ("https://github.com/davidbrownell/Common_cpp_boost_" ++ boost_version ++ ".git"),
           Dependency.mk
            "398F6BEC057C4FE4B724153DF4EB8AE4"
            "Common_cpp_Helpers"
            "standard"
            "https://github.com/davidbrownell/Common_cpp_Helpers.git"])
      compiler_infos.foldl
        (fun d ci =>
          let config_name := ci.1
          let architecture_configuration_suffix := ci.2.getD ""
          architectures.foldl
            (fun d architecture =>
              let this_config_name :=
                boost_version ++ "_" ++ config_name ++ "_" ++ architecture ++
                  architecture_configuration_suffix
              let this_config_desc :=
                "boost " ++ boost_version ++ " - " ++ config_name ++ " (" ++ architecture ++
                  architecture_configuration_suffix ++ ")"
              odInsert d this_config_name
                (Configuration.mk
                  this_config_desc
                  [Dependency.mk
                    "407DD743110A4FB1871AEF60CBEC99A0"
                    ("Common_cpp_boost_" ++ boost_version)
                    (config_name ++ "_" ++ architecture ++ architecture_configuration_suffix)
                    ("https://github.com/davidbrownell/Common_cpp_boost_" ++ boost_version ++ ".git"),
                   Dependency.mk
                    "398F6BEC057C4FE4B724153DF4EB8AE4"
                    "Common_cpp_Helpers"
                    "standard"
                    "https://github.com/davidbrownell/Common_cpp_Helpers.git"]))
            d)
        d)
    []

/-- A generic shell-command action, the element type of the list returned by
`GetCustomActions`.  Modelled from the spec: "generic shell-command actions"
defined by the external `CommonEnvironment` framework (not under `src/`); only
inhabitedness matters here, since the script never constructs one. -/
structure Command where
  statement : String
deriving DecidableEq, Repr

/-- `GetCustomActions(debug, verbose, explicit_configurations)`
(`Setup_custom.py` lines 166-176): returns the empty list unconditionally. -/
def GetCustomActions (debug : Bool) (verbose : Bool)
    (explicit_configurations : List String) : List Command :=
  []

end SetupCustom

namespace SetupCustom

/-- The base configuration keyed by the version string alone (`Setup_custom.py`
lines 118-135), as a standalone record for the evaluation lemmas. -/
def baseConfiguration : Configuration :=
  Configuration.mk
    "boost 1.70.0 (No compiler dependencies)"
    [Dependency.mk
      "407DD743110A4FB1871AEF60CBEC99A0"
      "Common_cpp_boost_1.70.0"
      "standard"
      "https://github.com/davidbrownell/Common_cpp_boost_1.70.0.git",
     Dependency.mk
      "398F6BEC057C4FE4B724153DF4EB8AE4"
      "Common_cpp_Helpers"
      "standard"
      "https://github.com/davidbrownell/Common_cpp_Helpers.git"]

/-- The compiler/architecture-qualified configuration record (`Setup_custom.py`
lines 137-160) for version `1.70.0`, compiler `config_name`, architecture
`architecture` and (already-defaulted) suffix `suffix`. -/
def qualifiedConfiguration (config_name architecture suffix : String) : Configuration :=
  Configuration.mk
    ("boost 1.70.0 - " ++ config_name ++ " (" ++ architecture ++ suffix ++ ")")
    [Dependency.mk
      "407DD743110A4FB1871AEF60CBEC99A0"
      "Common_cpp_boost_1.70.0"
      (config_name ++ "_" ++ architecture ++ suffix)
      "https://github.com/davidbrownell/Common_cpp_boost_1.70.0.git",
     Dependency.mk
      "398F6BEC057C4FE4B724153DF4EB8AE4"
      "Common_cpp_Helpers"
      "standard"
      "https://github.com/davidbrownell/Common_cpp_Helpers.git"]

lemma clang_key_ne_base (a : String) : "1.70.0" ≠ "1.70.0_Clang_10_" ++ a ++ "_ex" := by
  intro h
  have h' := congrArg String.length h
  rw [String.length_append, String.length_append] at h'
  have e1 : ("1.70.0" : String).length = 6 := rfl
  have e2 : ("1.70.0_Clang_10_" : String).length = 16 := rfl
  have e3 : ("_ex" : String).length = 3 := rfl
  omega

/-- On a Windows shell the whole construction is closed, whatever the detected
architecture: evaluation of `GetDependencies`. -/
lemma getDependencies_windows (a : String) :
    GetDependencies (Shell.mk "Windows" a) =
      [("1.70.0", baseConfiguration),
       ("1.70.0_MSVC_2019_x64", qualifiedConfiguration "MSVC_2019" "x64" ""),
       ("1.70.0_MSVC_2019_x86", qualifiedConfiguration "MSVC_2019" "x86" ""),
       ("1.70.0_Clang_10_x64_ex", qualifiedConfiguration "Clang_10" "x64" "_ex"),
       ("1.70.0_Clang_10_x86_ex", qualifiedConfiguration "Clang_10" "x86" "_ex")] := rfl

/-- On a non-Windows shell, evaluation of `GetDependencies` in terms of the
detected architecture. -/
lemma getDependencies_nonWindows (c a : String) (h : c ≠ "Windows") :
    GetDependencies (Shell.mk c a) =
      [("1.70.0", baseConfiguration),
       ("1.70.0_Clang_10_" ++ a ++ "_ex", qualifiedConfiguration "Clang_10" a "_ex")] := by
  have hk : (("1.70.0" : String) == "1.70.0" ++ "_" ++ "Clang_10" ++ "_" ++ a ++ "_ex") = false := by
    rw [beq_eq_false_iff_ne]
    exact clang_key_ne_base a
  have ha : architecturesOf (Shell.mk c a) = [a] := by
    rw [architecturesOf, if_neg h]
  have hcc : compiler_infosOf (Shell.mk c a) = [("Clang_10", some "_ex")] := by
    rw [compiler_infosOf, if_neg h]
  simp only [GetDependencies, ha, hcc, List.foldl_cons, List.foldl_nil, Option.getD_some]
  simp only [odInsert, List.any_cons, List.any_nil, Bool.or_false, hk, reduceIte]
  rfl

/-- The possible outcomes of evaluating the module prelude of `Setup_custom.py`
(lines 45-46): `fundamental_repo = os.getenv("DEVELOPMENT_ENVIRONMENT_FUNDAMENTAL")`
followed by `assert os.path.isdir(fundamental_repo), fundamental_repo`.
`ok` means the load proceeds past the assertion, so `GetDependencies` and
`GetCustomActions` become defined; either error outcome terminates the load
before those functions exist. -/
inductive LoadOutcome where
  | ok
  | assertionError (message : Option String)
  | typeError
deriving DecidableEq, Repr

/-- `os.path.isdir` applied to the result of `os.getenv`, which is `None` when
the variable is unset.  CPython's `genericpath.isdir` calls `os.stat` and
catches only `OSError` and `ValueError`; `os.stat(None)` raises `TypeError`,
which therefore propagates (the `Except.error` case).  On a string it returns
whether the path names an existing directory, taken here from the abstract
filesystem predicate `isdir`. -/
def os_path_isdir (isdir : String → Bool) : Option String → Except Unit Bool
  | none => Except.error ()
  | some s => Except.ok (isdir s)

/-- The module-load prelude of `Setup_custom.py` (lines 45-46): `getenvResult`
is the value of `os.getenv("DEVELOPMENT_ENVIRONMENT_FUNDAMENTAL")` (`none` when
the variable is unset) and `isdir` is the filesystem's existing-directory
predicate.  A failing `assert cond, fundamental_repo` raises `AssertionError`
carrying the asserted value `fundamental_repo` as its message. -/
def moduleLoad (getenvResult : Option String) (isdir : String → Bool) : LoadOutcome :=
  match os_path_isdir isdir getenvResult with
  | Except.error () => LoadOutcome.typeError
  | Except.ok true => LoadOutcome.ok
  | Except.ok false => LoadOutcome.assertionError getenvResult

end SetupCustom

namespace SetupCustom

/-- Claim C1: when the detected platform category is "Windows",
`GetDependencies` returns an insertion-ordered mapping whose keys are exactly,
and in this order: `1.70.0`, `1.70.0_MSVC_2019_x64`, `1.70.0_MSVC_2019_x86`,
`1.70.0_Clang_10_x64_ex`, `1.70.0_Clang_10_x86_ex` (base configuration first,
then one x64 and one x86 variant for each compiler/suffix pair). -/
theorem claim_C1 (sh : Shell) (h : sh.CategoryName = "Windows") :
    (GetDependencies sh).map Prod.fst =
      ["1.70.0", "1.70.0_MSVC_2019_x64", "1.70.0_MSVC_2019_x86",
       "1.70.0_Clang_10_x64_ex", "1.70.0_Clang_10_x86_ex"] := by
  obtain ⟨c, a⟩ := sh
  cases h
  rw [getDependencies_windows]
  rfl

/-- Witness for C1 at the concrete shell `("Windows", "x64")`. -/
theorem claim_C1_witness :
    (Shell.mk "Windows" "x64").CategoryName = "Windows" ∧
    (GetDependencies (Shell.mk "Windows" "x64")).map Prod.fst =
      ["1.70.0", "1.70.0_MSVC_2019_x64", "1.70.0_MSVC_2019_x86",
       "1.70.0_Clang_10_x64_ex", "1.70.0_Clang_10_x86_ex"] :=
  ⟨rfl, claim_C1 (Shell.mk "Windows" "x64") rfl⟩

/-- Claim C2: when the detected platform category is not "Windows",
`GetDependencies` returns a mapping whose keys are exactly `1.70.0` and
`1.70.0_Clang_10_<detected-architecture>_ex`: one architecture variant per
compiler/suffix pair, whose architecture component is the detected
architecture. -/
theorem claim_C2 (sh : Shell) (h : sh.CategoryName ≠ "Windows") :
    (GetDependencies sh).map Prod.fst =
      ["1.70.0", "1.70.0_Clang_10_" ++ sh.Architecture ++ "_ex"] := by
  obtain ⟨c, a⟩ := sh
  rw [getDependencies_nonWindows c a h]
  rfl

/-- Witness for C2 at the concrete shell `("Linux", "x64")`. -/
theorem claim_C2_witness :
    (Shell.mk "Linux" "x64").CategoryName ≠ "Windows" ∧
    (GetDependencies (Shell.mk "Linux" "x64")).map Prod.fst =
      ["1.70.0", "1.70.0_Clang_10_x64_ex"] :=
  ⟨by decide, claim_C2 (Shell.mk "Linux" "x64") (by decide)⟩

/-- Counterexample to claim C3 as stated: with the environment variable unset
(`os.getenv` returns `None`), the module load terminates with a `TypeError`
raised by `os.path.isdir(None)`, not with an `AssertionError`. -/
theorem claim_C3_counterexample :
    moduleLoad none (fun _ => false) = LoadOutcome.typeError ∧
    moduleLoad none (fun _ => false) ≠ LoadOutcome.assertionError none := by
  exact ⟨rfl, by decide⟩

/-- Claim C3, amended: if the environment variable is unset the module still
terminates at load time, but via a `TypeError` from the directory check rather
than an assertion failure; if it is set but does not name an existing
directory, the load terminates via an assertion failure whose message is the
failing path; if it names an existing directory, load proceeds without error. -/
theorem claim_C3 (getenvResult : Option String) (isdir : String → Bool) :
    moduleLoad getenvResult isdir =
      match getenvResult with
      | none => LoadOutcome.typeError
      | some p => if isdir p then LoadOutcome.ok else LoadOutcome.assertionError (some p) := by
  cases getenvResult with
  | none => rfl
  | some p => cases hp : isdir p <;> simp [moduleLoad, os_path_isdir, hp]

/-- Claim C4: every compiler/architecture-specific configuration (every entry
whose key is not the bare version string) has exactly the two dependencies: the
first upstream repository `Common_cpp_boost_1.70.0` with sub-configuration
`<compiler>_<architecture><suffix>` (suffix empty when the pair's suffix is
`None`), and the second upstream repository `Common_cpp_Helpers` with
sub-configuration `standard`, where the compiler/suffix pair comes from the
compiler list and the architecture from the architecture list.  The pair is
the configuration's own: the entry's key is exactly
`<version>_<compiler>_<architecture><suffix>` for the same compiler,
architecture and suffix that appear in the first dependency's
sub-configuration. -/
theorem claim_C4 (sh : Shell) :
    ∀ p ∈ GetDependencies sh, p.1 ≠ "1.70.0" →
      ∃ ci ∈ compiler_infosOf sh, ∃ architecture ∈ architecturesOf sh,
        p.1 = "1.70.0" ++ "_" ++ ci.1 ++ "_" ++ architecture ++ ci.2.getD "" ∧
        p.2.dependencies =
          [Dependency.mk "407DD743110A4FB1871AEF60CBEC99A0" "Common_cpp_boost_1.70.0"
            (ci.1 ++ "_" ++ architecture ++ ci.2.getD "")
            "https://github.com/davidbrownell/Common_cpp_boost_1.70.0.git",
           Dependency.mk "398F6BEC057C4FE4B724153DF4EB8AE4" "Common_cpp_Helpers" "standard"
            "https://github.com/davidbrownell/Common_cpp_Helpers.git"] := by
  obtain ⟨c, a⟩ := sh
  by_cases hw : c = "Windows"
  · subst hw
    intro p hp hne
    rw [getDependencies_windows] at hp
    simp only [List.mem_cons, List.mem_singleton, List.not_mem_nil, or_false] at hp
    rcases hp with rfl | rfl | rfl | rfl | rfl
    · exact absurd rfl hne
    · exact ⟨("MSVC_2019", none), by simp [compiler_infosOf], "x64",
        by simp [architecturesOf], rfl, rfl⟩
    · exact ⟨("MSVC_2019", none), by simp [compiler_infosOf], "x86",
        by simp [architecturesOf], rfl, rfl⟩
    · exact ⟨("Clang_10", some "_ex"), by simp [compiler_infosOf], "x64",
        by simp [architecturesOf], rfl, rfl⟩
    · exact ⟨("Clang_10", some "_ex"), by simp [compiler_infosOf], "x86",
        by simp [architecturesOf], rfl, rfl⟩
  · intro p hp hne
    rw [getDependencies_nonWindows c a hw] at hp
    simp only [List.mem_cons, List.mem_singleton, List.not_mem_nil, or_false] at hp
    rcases hp with rfl | rfl
    · exact absurd rfl hne
    · refine ⟨("Clang_10", some "_ex"), ?_, a, ?_, rfl, rfl⟩
      · simp [compiler_infosOf, hw]
      · simp [architecturesOf, hw]

/-- Witness for C4 at the Windows shell and the `1.70.0_MSVC_2019_x64` entry. -/
theorem claim_C4_witness :
    ∃ ci ∈ compiler_infosOf (Shell.mk "Windows" "x64"),
      ∃ architecture ∈ architecturesOf (Shell.mk "Windows" "x64"),
        "1.70.0_MSVC_2019_x64" =
          "1.70.0" ++ "_" ++ ci.1 ++ "_" ++ architecture ++ ci.2.getD "" ∧
        (qualifiedConfiguration "MSVC_2019" "x64" "").dependencies =
          [Dependency.mk "407DD743110A4FB1871AEF60CBEC99A0" "Common_cpp_boost_1.70.0"
            (ci.1 ++ "_" ++ architecture ++ ci.2.getD "")
            "https://github.com/davidbrownell/Common_cpp_boost_1.70.0.git",
           Dependency.mk "398F6BEC057C4FE4B724153DF4EB8AE4" "Common_cpp_Helpers" "standard"
            "https://github.com/davidbrownell/Common_cpp_Helpers.git"] :=
  claim_C4 (Shell.mk "Windows" "x64")
    ("1.70.0_MSVC_2019_x64", qualifiedConfiguration "MSVC_2019" "x64" "")
    (by decide) (by decide)

/-- Claim C5: the base configuration (keyed by the version string alone) has
both of its dependencies referencing sub-configuration `standard`. -/
theorem claim_C5 (sh : Shell) :
    ∀ p ∈ GetDependencies sh, p.1 = "1.70.0" →
      ∀ dep ∈ p.2.dependencies, dep.configuration = "standard" := by
  obtain ⟨c, a⟩ := sh
  by_cases hw : c = "Windows"
  · subst hw
    intro p hp he
    rw [getDependencies_windows] at hp
    simp only [List.mem_cons, List.mem_singleton, List.not_mem_nil, or_false] at hp
    rcases hp with rfl | rfl | rfl | rfl | rfl
    · decide
    · exact absurd he (by decide)
    · exact absurd he (by decide)
    · exact absurd he (by decide)
    · exact absurd he (by decide)
  · intro p hp he
    rw [getDependencies_nonWindows c a hw] at hp
    simp only [List.mem_cons, List.mem_singleton, List.not_mem_nil, or_false] at hp
    rcases hp with rfl | rfl
    · decide
    · exact absurd he.symm (clang_key_ne_base a)

/-- Witness for C5 at the Windows shell, the base entry and its first
dependency. -/
theorem claim_C5_witness :
    (Dependency.mk "407DD743110A4FB1871AEF60CBEC99A0" "Common_cpp_boost_1.70.0" "standard"
      "https://github.com/davidbrownell/Common_cpp_boost_1.70.0.git").configuration =
      "standard" :=
  claim_C5 (Shell.mk "Windows" "x64") ("1.70.0", baseConfiguration) (by decide) rfl
    (Dependency.mk "407DD743110A4FB1871AEF60CBEC99A0" "Common_cpp_boost_1.70.0" "standard"
      "https://github.com/davidbrownell/Common_cpp_boost_1.70.0.git") (by decide)

/-- Claim C6: `GetCustomActions` returns the empty sequence for every
combination of arguments.  The embedding is a pure total function, so the
absence of side effects is captured by construction. -/
theorem claim_C6 (debug : Bool) (verbose : Bool) (explicit_configurations : List String) :
    GetCustomActions debug verbose explicit_configurations = [] := rfl

/-- Claim C7: the configuration names of the returned mapping are pairwise
distinct, and the mapping has the full `1 + compilers * architectures` size —
so no two distinct (version, compiler, architecture, suffix) tuples produced
the same key and no generated key collided with the base key (a collision
would have made `odInsert` overwrite an entry and the map shorter). -/
theorem claim_C7 (sh : Shell) :
    ((GetDependencies sh).map Prod.fst).Nodup ∧
    (GetDependencies sh).length =
      1 + (compiler_infosOf sh).length * (architecturesOf sh).length := by
  obtain ⟨c, a⟩ := sh
  by_cases hw : c = "Windows"
  · subst hw
    rw [getDependencies_windows]
    exact ⟨by decide, rfl⟩
  · rw [getDependencies_nonWindows c a hw]
    constructor
    · simp only [List.map_cons, List.map_nil, List.nodup_cons, List.mem_singleton,
        List.mem_cons, List.not_mem_nil, or_false, List.nodup_nil, and_true,
        not_false_iff]
      exact clang_key_ne_base a
    · simp [compiler_infosOf, architecturesOf, hw]

/-- Claim C8: in every configuration, each dependency's identifier/name pair is
one of the two fixed pairs: `407DD743110A4FB1871AEF60CBEC99A0` with
`Common_cpp_boost_1.70.0`, or `398F6BEC057C4FE4B724153DF4EB8AE4` with
`Common_cpp_Helpers`. -/
theorem claim_C8 (sh : Shell) :
    ∀ p ∈ GetDependencies sh, ∀ dep ∈ p.2.dependencies,
      (dep.id = "407DD743110A4FB1871AEF60CBEC99A0" ∧
        dep.name = "Common_cpp_boost_1.70.0") ∨
      (dep.id = "398F6BEC057C4FE4B724153DF4EB8AE4" ∧
        dep.name = "Common_cpp_Helpers") := by
  obtain ⟨c, a⟩ := sh
  by_cases hw : c = "Windows"
  · subst hw
    rw [getDependencies_windows]
    decide
  · intro p hp
    rw [getDependencies_nonWindows c a hw] at hp
    simp only [List.mem_cons, List.mem_singleton, List.not_mem_nil, or_false] at hp
    rcases hp with rfl | rfl
    · decide
    · intro dep hdep
      simp only [qualifiedConfiguration, List.mem_cons, List.not_mem_nil, or_false] at hdep
      rcases hdep with rfl | rfl
      · exact Or.inl ⟨rfl, rfl⟩
      · exact Or.inr ⟨rfl, rfl⟩

/-- Witness for C8 at the Windows shell, the base entry and its second
dependency. -/
theorem claim_C8_witness :
    ((Dependency.mk "398F6BEC057C4FE4B724153DF4EB8AE4" "Common_cpp_Helpers" "standard"
        "https://github.com/davidbrownell/Common_cpp_Helpers.git").id =
          "407DD743110A4FB1871AEF60CBEC99A0" ∧
      (Dependency.mk "398F6BEC057C4FE4B724153DF4EB8AE4" "Common_cpp_Helpers" "standard"
        "https://github.com/davidbrownell/Common_cpp_Helpers.git").name =
          "Common_cpp_boost_1.70.0") ∨
    ((Dependency.mk "398F6BEC057C4FE4B724153DF4EB8AE4" "Common_cpp_Helpers" "standard"
        "https://github.com/davidbrownell/Common_cpp_Helpers.git").id =
          "398F6BEC057C4FE4B724153DF4EB8AE4" ∧
      (Dependency.mk "398F6BEC057C4FE4B724153DF4EB8AE4" "Common_cpp_Helpers" "standard"
        "https://github.com/davidbrownell/Common_cpp_Helpers.git").name =
          "Common_cpp_Helpers") :=
  claim_C8 (Shell.mk "Windows" "x64") ("1.70.0", baseConfiguration) (by decide)
    (Dependency.mk "398F6BEC057C4FE4B724153DF4EB8AE4" "Common_cpp_Helpers" "standard"
      "https://github.com/davidbrownell/Common_cpp_Helpers.git") (by decide)

/-- Claim C9: `GetDependencies` is deterministic in the detected platform
state: two runs with the same category name and the same detected architecture
return identical mappings.  The embedding reads nothing but these two
attributes. -/
theorem claim_C9 (sh1 sh2 : Shell) (h1 : sh1.CategoryName = sh2.CategoryName)
    (h2 : sh1.Architecture = sh2.Architecture) :
    GetDependencies sh1 = GetDependencies sh2 := by
  obtain ⟨c1, a1⟩ := sh1
  obtain ⟨c2, a2⟩ := sh2
  cases h1
  cases h2
  rfl

/-- Witness for C9 at two shells with equal platform state. -/
theorem claim_C9_witness :
    (Shell.mk "Linux" "x64").CategoryName = (Shell.mk "Linux" "x64").CategoryName ∧
    (Shell.mk "Linux" "x64").Architecture = (Shell.mk "Linux" "x64").Architecture ∧
    GetDependencies (Shell.mk "Linux" "x64") = GetDependencies (Shell.mk "Linux" "x64") :=
  ⟨rfl, rfl, claim_C9 (Shell.mk "Linux" "x64") (Shell.mk "Linux" "x64") rfl rfl⟩

/-- Claim C10: every configuration in the returned map has exactly two
dependency records, in the fixed order `Common_cpp_boost_1.70.0` first and
`Common_cpp_Helpers` second, both carrying the same fixed source URLs in every
configuration; only the sub-configuration fields vary. -/
theorem claim_C10 (sh : Shell) :
    ∀ p ∈ GetDependencies sh, ∃ sub1 sub2,
      p.2.dependencies =
        [Dependency.mk "407DD743110A4FB1871AEF60CBEC99A0" "Common_cpp_boost_1.70.0" sub1
          "https://github.com/davidbrownell/Common_cpp_boost_1.70.0.git",
         Dependency.mk "398F6BEC057C4FE4B724153DF4EB8AE4" "Common_cpp_Helpers" sub2
          "https://github.com/davidbrownell/Common_cpp_Helpers.git"] := by
  obtain ⟨c, a⟩ := sh
  by_cases hw : c = "Windows"
  · subst hw
    intro p hp
    rw [getDependencies_windows] at hp
    simp only [List.mem_cons, List.mem_singleton, List.not_mem_nil, or_false] at hp
    rcases hp with rfl | rfl | rfl | rfl | rfl
    · exact ⟨"standard", "standard", rfl⟩
    · exact ⟨"MSVC_2019_x64", "standard", rfl⟩
    · exact ⟨"MSVC_2019_x86", "standard", rfl⟩
    · exact ⟨"Clang_10_x64_ex", "standard", rfl⟩
    · exact ⟨"Clang_10_x86_ex", "standard", rfl⟩
  · intro p hp
    rw [getDependencies_nonWindows c a hw] at hp
    simp only [List.mem_cons, List.mem_singleton, List.not_mem_nil, or_false] at hp
    rcases hp with rfl | rfl
    · exact ⟨"standard", "standard", rfl⟩
    · exact ⟨"Clang_10_" ++ a ++ "_ex", "standard", rfl⟩

/-- Witness for C10 at a non-Windows shell and the base entry. -/
theorem claim_C10_witness :
    ∃ sub1 sub2, baseConfiguration.dependencies =
      [Dependency.mk "407DD743110A4FB1871AEF60CBEC99A0" "Common_cpp_boost_1.70.0" sub1
        "https://github.com/davidbrownell/Common_cpp_boost_1.70.0.git",
       Dependency.mk "398F6BEC057C4FE4B724153DF4EB8AE4" "Common_cpp_Helpers" sub2
        "https://github.com/davidbrownell/Common_cpp_Helpers.git"] :=
  claim_C10 (Shell.mk "Linux" "aarch64") ("1.70.0", baseConfiguration) (by decide)

end SetupCustom
